import Mathlib

/-
Verification of the RC522 SPI reader library (rc522_spi_library.py).

The development shallowly embeds the protocol core of the library:
the transceive engine (method _communicate_with_card), the card-discovery
operations (request, anticoll), the antenna switch (antenna_on) and the
session teardown (cleanup).  Register values are natural numbers, Python
integers that may go negative (the computed bit length) are Lean Int.

The chip and the wall clock are modelled as an oracle (CommEnv below)
supplying the value of each register read the method performs, in program
order, together with the outcome of the wall-clock polling phase.
-/

namespace RC522

/- Register addresses, from class RC522Registers. -/

def COMMAND_REG : Nat := 0x01

def COM_IRQ_REG : Nat := 0x04

def ERROR_REG : Nat := 0x06

def FIFO_DATA_REG : Nat := 0x09

def FIFO_LEVEL_REG : Nat := 0x0A

def CONTROL_REG : Nat := 0x0C

def BIT_FRAMING_REG : Nat := 0x0D

def TX_CONTROL_REG : Nat := 0x14

/- Chip command opcodes, from class RC522Commands. -/

def IDLE : Nat := 0x00

def CALC_CRC : Nat := 0x03

def TRANSCEIVE : Nat := 0x0C

def SOFT_RESET : Nat := 0x0F

/- Card-level command bytes, from class MifareCommands. -/

def REQUEST_A : Nat := 0x26

def ANTICOLL_1 : Nat := 0x93

/- Status codes, from class StatusCodes. -/

def OK : Nat := 0

def ERROR : Nat := 1

def TIMEOUT : Nat := 3

/-- Python `v & ~mask` on a nonnegative integer: clear the bits of `mask`
in `v`.  Bitwise identity: bit i of `v ^^^ (v &&& mask)` is
`v_i && !(v_i && mask_i) = v_i && !mask_i`. -/
def clearMask (v mask : Nat) : Nat := v ^^^ (v &&& mask)

/-- A register-bus operation performed through the SPI transport
(methods _write_register / _read_register).  A read records the byte the
chip returned. -/
inductive RegOp where
  | rd (reg : Nat) (val : Nat)
  | wr (reg : Nat) (val : Nat)
deriving DecidableEq, Repr

/-- Whether the operation is a register write. -/
def RegOp.isWrite : RegOp → Bool
  | .rd _ _ => false
  | .wr _ _ => true

/-- The values read from register `reg` in a trace, in order. -/
def readsOf (t : List RegOp) (reg : Nat) : List Nat :=
  t.filterMap fun op =>
    match op with
    | .rd r v => if r = reg then some v else none
    | .wr _ _ => none

/-- Oracle for one _communicate_with_card invocation: the byte the chip
returns for each register read the method performs, in program order, plus
the outcome of the wall-clock polling phase.

The polling loop `while time.time() - start_time < timeout: n = read(COM_IRQ);
if n & 0x30: break` is abstracted by its observable outcome:
* `pollIrq = some n` — the loop exited through `break`, the last COM_IRQ
  value read being `n` (so `n &&& 0x30 ≠ 0`);
* `pollIrq = none` — the loop exited because the clock check failed
  (or never ran, when `timeout ≤ 0`).
`lateFinal` is the result of the second deadline check
`time.time() - start_time >= timeout` made after the start-send bit is
cleared.  The clock is monotone, so a loop that exited on the clock check
always has `lateFinal = true`; when the loop exited through `break` the
final check may still come out late (the flag was seen just before the
deadline and the clear took the elapsed time past it).  Both constraints
are collected in `CommEnv.WF`.  The COM_IRQ reads of the polling loop are
not recorded in the trace. -/
structure CommEnv where
  /-- Byte read from FIFO_LEVEL_REG by the FIFO-flush `_set_bit_mask`. -/
  fifoLevelFlush : Nat
  /-- Byte read from BIT_FRAMING_REG by the start-send `_set_bit_mask`. -/
  bitFramingSet : Nat
  /-- Outcome of the polling loop, see above. -/
  pollIrq : Option Nat
  /-- Byte read from BIT_FRAMING_REG by the unconditional `_clear_bit_mask`. -/
  bitFramingClear : Nat
  /-- Result of the post-clear deadline re-check. -/
  lateFinal : Bool
  /-- Byte read from ERROR_REG. -/
  errorReg : Nat
  /-- Byte read from FIFO_LEVEL_REG before the drain. -/
  fifoLevel : Nat
  /-- Byte read from CONTROL_REG. -/
  controlReg : Nat
  /-- Byte returned by the i-th read of FIFO_DATA_REG during the drain. -/
  fifoData : Nat → Nat

/-- Reachability constraints on the oracle: a `break` exit carries an
interrupt value with the 0x30 done mask set, and a clock-check exit forces
the later deadline re-check to be late as well (the clock is monotone). -/
def CommEnv.WF (e : CommEnv) : Prop :=
  e.pollIrq.getD 0x30 &&& 0x30 ≠ 0 ∧ (e.pollIrq.isSome = true ∨ e.lateFinal = true)

/-- Result of one _communicate_with_card invocation, together with the
trace of register operations the invocation performed (the COM_IRQ polling
reads excepted). -/
structure CommResult where
  status : Nat
  backData : List Nat
  backLen : Int
  trace : List RegOp
deriving DecidableEq, Repr

/-- Register operations performed before the polling loop: idle the chip,
clear the interrupt-request flags, flush the FIFO (a read-modify-write on
FIFO_LEVEL_REG), load `send_data` into the FIFO, start `command`, and for
the transceive opcode set the start-send bit (a read-modify-write on
BIT_FRAMING_REG). -/
def preTrace (command : Nat) (send_data : List Nat) (e : CommEnv) : List RegOp :=
  [RegOp.wr COMMAND_REG IDLE,
   RegOp.wr COM_IRQ_REG 0x7F,
   RegOp.rd FIFO_LEVEL_REG e.fifoLevelFlush,
   RegOp.wr FIFO_LEVEL_REG (e.fifoLevelFlush ||| 0x80)]
  ++ send_data.map (RegOp.wr FIFO_DATA_REG)
  ++ [RegOp.wr COMMAND_REG command]
  ++ (if command = TRANSCEIVE then
        [RegOp.rd BIT_FRAMING_REG e.bitFramingSet,
         RegOp.wr BIT_FRAMING_REG (e.bitFramingSet ||| 0x80)]
      else [])

/-- The unconditional `_clear_bit_mask(BIT_FRAMING_REG, 0x80)` performed
right after the polling loop, whatever its outcome. -/
def clearTrace (e : CommEnv) : List RegOp :=
  [RegOp.rd BIT_FRAMING_REG e.bitFramingClear,
   RegOp.wr BIT_FRAMING_REG (clearMask e.bitFramingClear 0x80)]

/-- The two sequential reassignments of `fifo_size` before the drain:
`if fifo_size == 0: fifo_size = 1` then `if fifo_size > 16: fifo_size = 16`. -/
def drainCount (fifo_level : Nat) : Nat :=
  let fs := if fifo_level = 0 then 1 else fifo_level
  if fs > 16 then 16 else fs

/-- Shallow embedding of method _communicate_with_card.  Faithful to the
source order: pre-poll register work, polling, unconditional clear of the
start-send bit, the deadline re-check (TIMEOUT), the error-register check
(ERROR with no data), the chip-timer interrupt bit (status ERROR), and for
the transceive opcode the bit-length computation from the raw FIFO level
followed by the clamped drain.  `e.pollIrq.getD 0` stands for the loop
variable `n`; its default is never consulted on a well-formed oracle,
since `pollIrq = none` forces the TIMEOUT return. -/
def _communicate_with_card (command : Nat) (send_data : List Nat) (e : CommEnv) :
    CommResult :=
  if e.lateFinal then
    { status := TIMEOUT, backData := [], backLen := 0,
      trace := preTrace command send_data e ++ clearTrace e }
  else if e.errorReg &&& 0x1B ≠ 0 then
    { status := ERROR, backData := [], backLen := 0,
      trace := preTrace command send_data e ++ clearTrace e
               ++ [RegOp.rd ERROR_REG e.errorReg] }
  else if command = TRANSCEIVE then
    { status := if e.pollIrq.getD 0 &&& 0x01 ≠ 0 then ERROR else OK,
      backData := (List.range (drainCount e.fifoLevel)).map e.fifoData,
      backLen :=
        if e.controlReg &&& 0x07 ≠ 0 then
          ((e.fifoLevel : Int) - 1) * 8 + (((e.controlReg &&& 0x07 : Nat)) : Int)
        else (e.fifoLevel : Int) * 8,
      trace := preTrace command send_data e ++ clearTrace e
               ++ [RegOp.rd ERROR_REG e.errorReg,
                   RegOp.rd FIFO_LEVEL_REG e.fifoLevel,
                   RegOp.rd CONTROL_REG e.controlReg]
               ++ (List.range (drainCount e.fifoLevel)).map
                    (fun i => RegOp.rd FIFO_DATA_REG (e.fifoData i)) }
  else
    { status := if e.pollIrq.getD 0 &&& 0x01 ≠ 0 then ERROR else OK,
      backData := [], backLen := 0,
      trace := preTrace command send_data e ++ clearTrace e
               ++ [RegOp.rd ERROR_REG e.errorReg] }

/-- Result of a card-discovery operation: a status code and the optional
payload (ATQA for request, UID for anticoll). -/
structure CardResult where
  status : Nat
  payload : Option (List Nat)
deriving DecidableEq, Repr

/-- Shallow embedding of method `request`.  The method first writes 0x07
to BIT_FRAMING_REG (short-frame mode, not part of the result) and then
calls _communicate_with_card(TRANSCEIVE, [REQUEST_A]); any status other
than OK, or a byte count other than 2, is normalized to (ERROR, None). -/
def request (e : CommEnv) : CardResult :=
  let r := _communicate_with_card TRANSCEIVE [REQUEST_A] e
  if r.status ≠ OK ∨ r.backData.length ≠ 2 then { status := ERROR, payload := none }
  else { status := r.status, payload := some r.backData }

/-- Shallow embedding of method `anticoll`.  The method first writes 0x00
to BIT_FRAMING_REG and calls _communicate_with_card(TRANSCEIVE,
[ANTICOLL_1, 0x20]); on status OK with exactly 5 bytes it folds XOR over
the first 4 bytes and compares with the 5th, returning the first 4 bytes
on a match; every other outcome is (ERROR, None). -/
def anticoll (e : CommEnv) : CardResult :=
  let r := _communicate_with_card TRANSCEIVE [ANTICOLL_1, 0x20] e
  if r.status = OK ∧ r.backData.length = 5 then
    if (r.backData.take 4).foldl (fun a b => a ^^^ b) 0 ≠ r.backData.getD 4 0 then
      { status := ERROR, payload := none }
    else
      { status := OK, payload := some (r.backData.take 4) }
  else { status := ERROR, payload := none }

/-- Concrete oracle builder used by witnesses and counterexamples: a poll
phase that exits through `break` with COM_IRQ value `irq`, final deadline
re-check `late`, error register `err`, FIFO level `lvl`, control register
`ctrl`, and FIFO data reads taken from the list `data` (0 past its end). -/
def mkEnv (irq : Nat) (late : Bool) (err lvl ctrl : Nat) (data : List Nat) : CommEnv :=
  { fifoLevelFlush := 0, bitFramingSet := 0, pollIrq := some irq,
    bitFramingClear := 0x80, lateFinal := late, errorReg := err,
    fifoLevel := lvl, controlReg := ctrl, fifoData := fun i => data.getD i 0 }

/-- Concrete oracle whose poll phase never observes the done flag: the
loop exits on the clock check, and the deadline re-check is late. -/
def mkEnvTimeout : CommEnv :=
  { fifoLevelFlush := 0, bitFramingSet := 0, pollIrq := none,
    bitFramingClear := 0x80, lateFinal := true, errorReg := 0,
    fifoLevel := 0, controlReg := 0, fifoData := fun _ => 0 }

/-- Shallow embedding of method `antenna_on` as the list of register
operations it performs.  `v1` is the byte the guard read returns; `v2` the
byte the `_set_bit_mask` read returns when the write path is taken.  The
write path is taken exactly when `v1 & 0x03 == 0` (Python truthiness of
`not (value & 0x03)`). -/
def antenna_on (v1 v2 : Nat) : List RegOp :=
  if v1 &&& 0x03 = 0 then
    [RegOp.rd TX_CONTROL_REG v1,
     RegOp.rd TX_CONTROL_REG v2,
     RegOp.wr TX_CONTROL_REG (v2 ||| 0x03)]
  else
    [RegOp.rd TX_CONTROL_REG v1]

/-- The resource state of a reader session: the `_initialized` flag, and
whether the GPIO reset-line request, the GPIO chip handle and the SPI
channel are still held.  After `__init__` completes all four are set. -/
structure Session where
  initialized : Bool
  lineRequested : Bool
  chipOpen : Bool
  spiOpen : Bool
deriving DecidableEq, Repr

/-- Fault raised by the GPIO collaborator.  The spec's interface for the
GPIO line (a digital output line, requested/acquired before use and
released on cleanup) matches gpiod, where driving a line whose request
has been released raises OSError. -/
inductive GpioFault where
  | useAfterRelease
deriving DecidableEq, Repr

/-- Driving the reset line (rst_line.set_value): only legal while the
line request is held; on a released line the GPIO collaborator raises. -/
def setLineValue (s : Session) : Except GpioFault Session :=
  if s.lineRequested then Except.ok s else Except.error GpioFault.useAfterRelease

/-- Shallow embedding of method _reset: drive the reset line low, sleep,
drive it high, sleep.  Each drive requires the line request to be held. -/
def _reset (s : Session) : Except GpioFault Session := do
  let s1 ← setLineValue s
  setLineValue s1

/-- Shallow embedding of method `cleanup`, faithful to the source: if
`self._initialized` (never cleared by cleanup itself), perform a hardware
reset; then release the reset line, close the GPIO chip and close the SPI
channel (the `hasattr` guards are satisfied on any constructed session,
and the attribute values stay truthy after release, so all three branches
always run). -/
def cleanup (s : Session) : Except GpioFault Session := do
  let s1 ← if s.initialized then _reset s else Except.ok s
  Except.ok { s1 with lineRequested := false, chipOpen := false, spiOpen := false }

/-- The session state right after a successful `__init__` (which calls
the chip-setup method, ending with `self._initialized = True`). -/
def initializedSession : Session :=
  { initialized := true, lineRequested := true, chipOpen := true, spiOpen := true }

/- Helper lemmas about traces. -/

theorem readsOf_nil (reg : Nat) : readsOf [] reg = [] := rfl

theorem readsOf_cons_wr (r v reg : Nat) (t : List RegOp) :
    readsOf (RegOp.wr r v :: t) reg = readsOf t reg := by
  simp [readsOf]

theorem readsOf_cons_rd_ne (r v reg : Nat) (t : List RegOp) (h : r ≠ reg) :
    readsOf (RegOp.rd r v :: t) reg = readsOf t reg := by
  simp [readsOf, h]

theorem readsOf_cons_rd_eq (v reg : Nat) (t : List RegOp) :
    readsOf (RegOp.rd reg v :: t) reg = v :: readsOf t reg := by
  simp [readsOf]

theorem readsOf_append (t1 t2 : List RegOp) (reg : Nat) :
    readsOf (t1 ++ t2) reg = readsOf t1 reg ++ readsOf t2 reg := by
  simp [readsOf, List.filterMap_append]

theorem readsOf_wr_map (l : List Nat) (r reg : Nat) :
    readsOf (l.map (RegOp.wr r)) reg = [] := by
  induction l with
  | nil => rfl
  | cons a l ih => simp [readsOf, ih]

theorem readsOf_rd_map (f : Nat → Nat) (n r reg : Nat) (h : r ≠ reg) :
    readsOf ((List.range n).map (fun i => RegOp.rd r (f i))) reg = [] := by
  induction n with
  | zero => rfl
  | succ m ih => simp [List.range_succ, readsOf, List.filterMap_append, h, ih]

/-- The pre-poll work reads only FIFO_LEVEL_REG (the flush) and, for the
transceive opcode, BIT_FRAMING_REG (the start-send set). -/
theorem readsOf_preTrace_ne (command : Nat) (send : List Nat) (e : CommEnv) (reg : Nat)
    (h1 : reg ≠ FIFO_LEVEL_REG) (h2 : reg ≠ BIT_FRAMING_REG) :
    readsOf (preTrace command send e) reg = [] := by
  unfold preTrace
  rw [readsOf_append, readsOf_append, readsOf_append]
  rw [readsOf_cons_wr, readsOf_cons_wr, readsOf_cons_rd_ne _ _ _ _ (Ne.symm h1),
    readsOf_cons_wr, readsOf_nil, readsOf_wr_map, readsOf_cons_wr, readsOf_nil]
  by_cases hc : command = TRANSCEIVE
  · rw [if_pos hc, readsOf_cons_rd_ne _ _ _ _ (Ne.symm h2), readsOf_cons_wr, readsOf_nil]
    simp
  · rw [if_neg hc, readsOf_nil]
    simp

/-- For a non-transceive command the pre-poll work reads FIFO_LEVEL_REG
exactly once, in the FIFO-flush read-modify-write. -/
theorem readsOf_preTrace_fifo_level (command : Nat) (send : List Nat) (e : CommEnv)
    (hc : command ≠ TRANSCEIVE) :
    readsOf (preTrace command send e) FIFO_LEVEL_REG = [e.fifoLevelFlush] := by
  unfold preTrace
  rw [if_neg hc]
  rw [readsOf_append, readsOf_append, readsOf_append]
  rw [readsOf_cons_wr, readsOf_cons_wr, readsOf_cons_rd_eq,
    readsOf_cons_wr, readsOf_nil, readsOf_wr_map, readsOf_cons_wr, readsOf_nil]
  simp

theorem readsOf_clearTrace (e : CommEnv) (reg : Nat) (h : reg ≠ BIT_FRAMING_REG) :
    readsOf (clearTrace e) reg = [] := by
  unfold clearTrace
  rw [readsOf_cons_rd_ne _ _ _ _ (Ne.symm h), readsOf_cons_wr, readsOf_nil]

/-- C1: when the underlying communicate call of `anticoll` returns status
OK with exactly the 5 bytes b0..b4, `anticoll` returns (OK, [b0,b1,b2,b3])
if and only if b4 equals b0 XOR b1 XOR b2 XOR b3; in every other case
(non-OK status or a byte count other than 5) it returns (ERROR, None) and
surfaces no UID bytes. -/
theorem C1_anticoll (e : CommEnv) :
    (∀ b0 b1 b2 b3 b4 : Nat,
      (_communicate_with_card TRANSCEIVE [ANTICOLL_1, 0x20] e).status = OK →
      (_communicate_with_card TRANSCEIVE [ANTICOLL_1, 0x20] e).backData = [b0, b1, b2, b3, b4] →
      anticoll e =
        (if b4 = b0 ^^^ b1 ^^^ b2 ^^^ b3 then
          { status := OK, payload := some [b0, b1, b2, b3] }
        else { status := ERROR, payload := none })) ∧
    (¬((_communicate_with_card TRANSCEIVE [ANTICOLL_1, 0x20] e).status = OK ∧
        (_communicate_with_card TRANSCEIVE [ANTICOLL_1, 0x20] e).backData.length = 5) →
      anticoll e = { status := ERROR, payload := none }) := by
  constructor
  · intro b0 b1 b2 b3 b4 hs hd
    have htake : [b0, b1, b2, b3, b4].take 4 = [b0, b1, b2, b3] := rfl
    have hget : [b0, b1, b2, b3, b4].getD 4 0 = b4 := rfl
    have hfold : ([b0, b1, b2, b3] : List Nat).foldl (fun a b => a ^^^ b) 0 =
        b0 ^^^ b1 ^^^ b2 ^^^ b3 := by
      show ((((0 : Nat) ^^^ b0) ^^^ b1) ^^^ b2) ^^^ b3 = b0 ^^^ b1 ^^^ b2 ^^^ b3
      rw [Nat.zero_xor]
    have hcond : (_communicate_with_card TRANSCEIVE [ANTICOLL_1, 0x20] e).status = OK ∧
        (_communicate_with_card TRANSCEIVE [ANTICOLL_1, 0x20] e).backData.length = 5 :=
      ⟨hs, by rw [hd]; rfl⟩
    simp only [anticoll]
    rw [if_pos hcond, hd, htake, hget, hfold]
    by_cases hc : b4 = b0 ^^^ b1 ^^^ b2 ^^^ b3
    · rw [if_pos hc, if_neg (fun hne => hne hc.symm)]
    · rw [if_neg hc, if_pos (fun h => hc h.symm)]
  · intro h
    simp only [anticoll]
    rw [if_neg h]

/-- C1 witness: the spec scenario, a 5-byte response 12 34 56 78 with the
correct checksum 08, accepted with the 4-byte UID surfaced. -/
theorem C1_witness :
    (_communicate_with_card TRANSCEIVE [ANTICOLL_1, 0x20]
        (mkEnv 0x30 false 0 5 0 [0x12, 0x34, 0x56, 0x78, 0x08])).status = OK ∧
    (_communicate_with_card TRANSCEIVE [ANTICOLL_1, 0x20]
        (mkEnv 0x30 false 0 5 0 [0x12, 0x34, 0x56, 0x78, 0x08])).backData =
      [0x12, 0x34, 0x56, 0x78, 0x08] ∧
    anticoll (mkEnv 0x30 false 0 5 0 [0x12, 0x34, 0x56, 0x78, 0x08]) =
      (if (0x08 : Nat) = 0x12 ^^^ 0x34 ^^^ 0x56 ^^^ 0x78 then
        { status := OK, payload := some [0x12, 0x34, 0x56, 0x78] }
      else { status := ERROR, payload := none }) :=
  ⟨by decide, by decide,
    (C1_anticoll (mkEnv 0x30 false 0 5 0 [0x12, 0x34, 0x56, 0x78, 0x08])).1
      0x12 0x34 0x56 0x78 0x08 (by decide) (by decide)⟩

/-- C2 counterexample: the claim states that status TIMEOUT is returned
exactly when the deadline elapsed without the done flag (mask 0x30) being
observed during polling.  On the code this fails: the TIMEOUT return is
decided by a second wall-clock check made after the polling loop, so a
done flag observed just before the deadline (here COM_IRQ = 0x30, a
well-formed poll outcome) still yields TIMEOUT when that re-check comes
out late. -/
theorem C2_counterexample :
    ({ mkEnvTimeout with pollIrq := some 0x30, lateFinal := true } : CommEnv).WF ∧
    ({ mkEnvTimeout with pollIrq := some 0x30, lateFinal := true } : CommEnv).pollIrq =
      some 0x30 ∧
    (0x30 : Nat) &&& 0x30 ≠ 0 ∧
    (_communicate_with_card TRANSCEIVE [REQUEST_A]
      { mkEnvTimeout with pollIrq := some 0x30, lateFinal := true }).status = TIMEOUT := by
  refine ⟨⟨by decide, Or.inl rfl⟩, rfl, by decide, by decide⟩

/-- C2 (amended): communicate returns TIMEOUT exactly when the final
post-clear wall-clock check finds the deadline elapsed; in particular a
poll phase that never observed the done flag always ends in TIMEOUT.
Whenever the status is TIMEOUT the data sequence is empty and the bit
length 0, and no further register reads are attempted after the TIMEOUT
decision: no read of the error, control or FIFO registers occurs. -/
theorem C2_amended (command : Nat) (send : List Nat) (e : CommEnv) (hwf : e.WF) :
    ((_communicate_with_card command send e).status = TIMEOUT ↔ e.lateFinal = true) ∧
    (e.pollIrq = none → (_communicate_with_card command send e).status = TIMEOUT) ∧
    ((_communicate_with_card command send e).status = TIMEOUT →
      (_communicate_with_card command send e).backData = [] ∧
      (_communicate_with_card command send e).backLen = 0 ∧
      readsOf (_communicate_with_card command send e).trace ERROR_REG = [] ∧
      readsOf (_communicate_with_card command send e).trace CONTROL_REG = [] ∧
      readsOf (_communicate_with_card command send e).trace FIFO_DATA_REG = []) := by
  rcases hwf with ⟨-, hwf2⟩
  cases hl : e.lateFinal with
  | true =>
    have hr : _communicate_with_card command send e =
        { status := TIMEOUT, backData := [], backLen := 0,
          trace := preTrace command send e ++ clearTrace e } := by
      unfold _communicate_with_card
      rw [hl, if_pos rfl]
    have hst : (_communicate_with_card command send e).status = TIMEOUT := by rw [hr]
    have hbd : (_communicate_with_card command send e).backData = [] := by rw [hr]
    have hbl : (_communicate_with_card command send e).backLen = 0 := by rw [hr]
    have htr : (_communicate_with_card command send e).trace =
        preTrace command send e ++ clearTrace e := by rw [hr]
    refine ⟨⟨fun _ => rfl, fun _ => hst⟩, fun _ => hst, fun _ => ⟨hbd, hbl, ?_, ?_, ?_⟩⟩
    all_goals
      rw [htr, readsOf_append, readsOf_preTrace_ne _ _ _ _ (by decide) (by decide),
        readsOf_clearTrace _ _ (by decide)]
    all_goals rfl
  | false =>
    have hnt : (_communicate_with_card command send e).status ≠ TIMEOUT := by
      unfold _communicate_with_card
      rw [hl, if_neg (by decide)]
      split_ifs <;> simp [OK, ERROR, TIMEOUT]
    refine ⟨⟨fun h => absurd h hnt, fun h => absurd h (by decide)⟩, ?_,
      fun h => absurd h hnt⟩
    intro hnone
    rcases hwf2 with hs | hlate
    · rw [hnone] at hs; simp at hs
    · exact absurd (hl ▸ hlate) (by decide)

/-- C2 witness: a poll phase that never observes the done flag, ending in
TIMEOUT with empty data, zero bit length, and no error/control/FIFO reads. -/
theorem C2_witness :
    mkEnvTimeout.WF ∧
    (_communicate_with_card TRANSCEIVE [REQUEST_A] mkEnvTimeout).status = TIMEOUT ∧
    (_communicate_with_card TRANSCEIVE [REQUEST_A] mkEnvTimeout).backData = [] ∧
    (_communicate_with_card TRANSCEIVE [REQUEST_A] mkEnvTimeout).backLen = 0 ∧
    readsOf (_communicate_with_card TRANSCEIVE [REQUEST_A] mkEnvTimeout).trace ERROR_REG = [] ∧
    readsOf (_communicate_with_card TRANSCEIVE [REQUEST_A] mkEnvTimeout).trace CONTROL_REG = [] ∧
    readsOf (_communicate_with_card TRANSCEIVE [REQUEST_A] mkEnvTimeout).trace
      FIFO_DATA_REG = [] := by
  have hwf : mkEnvTimeout.WF := ⟨by decide, Or.inr rfl⟩
  have h := C2_amended TRANSCEIVE [REQUEST_A] mkEnvTimeout hwf
  exact ⟨hwf, h.2.1 rfl, h.2.2 (h.2.1 rfl)⟩

/-- On the path that passes the deadline re-check and the error-register
check, a transceive invocation computes its fields from the FIFO level,
the control register and the FIFO data reads. -/
theorem comm_transceive_fields (send : List Nat) (e : CommEnv)
    (hlate : e.lateFinal = false) (herr : e.errorReg &&& 0x1B = 0) :
    _communicate_with_card TRANSCEIVE send e =
      { status := if e.pollIrq.getD 0 &&& 0x01 ≠ 0 then ERROR else OK,
        backData := (List.range (drainCount e.fifoLevel)).map e.fifoData,
        backLen :=
          if e.controlReg &&& 0x07 ≠ 0 then
            ((e.fifoLevel : Int) - 1) * 8 + (((e.controlReg &&& 0x07 : Nat)) : Int)
          else (e.fifoLevel : Int) * 8,
        trace := preTrace TRANSCEIVE send e ++ clearTrace e
                 ++ [RegOp.rd ERROR_REG e.errorReg,
                     RegOp.rd FIFO_LEVEL_REG e.fifoLevel,
                     RegOp.rd CONTROL_REG e.controlReg]
                 ++ (List.range (drainCount e.fifoLevel)).map
                      (fun i => RegOp.rd FIFO_DATA_REG (e.fifoData i)) } := by
  unfold _communicate_with_card
  rw [hlate, if_neg (by decide), if_neg (by simp [herr]), if_pos rfl]

/-- On the same path, a non-transceive invocation returns no data, bit
length 0, and performs no register read past the error-register check. -/
theorem comm_other_fields (command : Nat) (send : List Nat) (e : CommEnv)
    (hc : command ≠ TRANSCEIVE) (hlate : e.lateFinal = false)
    (herr : e.errorReg &&& 0x1B = 0) :
    _communicate_with_card command send e =
      { status := if e.pollIrq.getD 0 &&& 0x01 ≠ 0 then ERROR else OK,
        backData := [], backLen := 0,
        trace := preTrace command send e ++ clearTrace e
                 ++ [RegOp.rd ERROR_REG e.errorReg] } := by
  unfold _communicate_with_card
  rw [hlate, if_neg (by decide), if_neg (by simp [herr]), if_neg hc]

/-- The two sequential clamps of the drain count agree with
max 1 (min 16 fifo_level). -/
theorem drainCount_eq_max_min (lvl : Nat) : drainCount lvl = max 1 (min 16 lvl) := by
  simp only [drainCount]
  split_ifs <;> omega

theorem drainCount_pos (lvl : Nat) : 1 ≤ drainCount lvl := by
  rw [drainCount_eq_max_min]; omega

/-- C3 counterexample: the claim quantifies over every transceive
invocation in which polling observed the done flag, no 0x1B error bit is
set and the timer-timeout bit 0x01 is set, and asserts status ERROR with
the FIFO drained.  On the code this fails when the final wall-clock
re-check comes out late: with COM_IRQ = 0x31 observed (done flag and
timer bit both set, a well-formed poll outcome) and a clean error
register, the invocation returns TIMEOUT with no data instead. -/
theorem C3_counterexample :
    ({ mkEnv 0x31 true 0 3 0 [0xAA, 0xBB, 0xCC] with fifoLevelFlush := 0 } : CommEnv).WF ∧
    (mkEnv 0x31 true 0 3 0 [0xAA, 0xBB, 0xCC]).pollIrq = some 0x31 ∧
    (0x31 : Nat) &&& 0x30 ≠ 0 ∧
    (0x31 : Nat) &&& 0x01 ≠ 0 ∧
    (mkEnv 0x31 true 0 3 0 [0xAA, 0xBB, 0xCC]).errorReg &&& 0x1B = 0 ∧
    (_communicate_with_card TRANSCEIVE [REQUEST_A]
        (mkEnv 0x31 true 0 3 0 [0xAA, 0xBB, 0xCC])).status = TIMEOUT ∧
    (_communicate_with_card TRANSCEIVE [REQUEST_A]
        (mkEnv 0x31 true 0 3 0 [0xAA, 0xBB, 0xCC])).status ≠ ERROR ∧
    (_communicate_with_card TRANSCEIVE [REQUEST_A]
        (mkEnv 0x31 true 0 3 0 [0xAA, 0xBB, 0xCC])).backData = [] :=
  ⟨⟨by decide, Or.inl rfl⟩, rfl, by decide, by decide, by decide, by decide,
    by decide, by decide⟩

/-- C3 (amended): for every transceive invocation in which polling
observed the done flag, the final wall-clock re-check was not late, no
error-register bit of mask 0x1B is set, but the timer-timeout interrupt
bit 0x01 is set in the observed flags, the status is ERROR while the
received FIFO bytes (at least one) are drained and returned. -/
theorem C3_amended (send : List Nat) (e : CommEnv) (n : Nat)
    (hp : e.pollIrq = some n) (hlate : e.lateFinal = false)
    (herr : e.errorReg &&& 0x1B = 0) (ht : n &&& 0x01 ≠ 0) :
    (_communicate_with_card TRANSCEIVE send e).status = ERROR ∧
    (_communicate_with_card TRANSCEIVE send e).backData =
      (List.range (drainCount e.fifoLevel)).map e.fifoData ∧
    1 ≤ (_communicate_with_card TRANSCEIVE send e).backData.length := by
  rw [comm_transceive_fields send e hlate herr]
  refine ⟨?_, rfl, ?_⟩
  · simp only [hp, Option.getD_some]
    rw [if_pos ht]
  · simp only [List.length_map, List.length_range]
    exact drainCount_pos e.fifoLevel

/-- C3 witness: done flag and timer bit observed together (COM_IRQ 0x31)
with a clean error register and 2 FIFO bytes: status ERROR, data kept. -/
theorem C3_witness :
    (mkEnv 0x31 false 0 2 0 [0xAB, 0xCD]).pollIrq = some 0x31 ∧
    (mkEnv 0x31 false 0 2 0 [0xAB, 0xCD]).lateFinal = false ∧
    (mkEnv 0x31 false 0 2 0 [0xAB, 0xCD]).errorReg &&& 0x1B = 0 ∧
    (0x31 : Nat) &&& 0x01 ≠ 0 ∧
    (_communicate_with_card TRANSCEIVE [REQUEST_A]
        (mkEnv 0x31 false 0 2 0 [0xAB, 0xCD])).status = ERROR ∧
    (_communicate_with_card TRANSCEIVE [REQUEST_A]
        (mkEnv 0x31 false 0 2 0 [0xAB, 0xCD])).backData =
      (List.range (drainCount (mkEnv 0x31 false 0 2 0 [0xAB, 0xCD]).fifoLevel)).map
        (mkEnv 0x31 false 0 2 0 [0xAB, 0xCD]).fifoData ∧
    1 ≤ (_communicate_with_card TRANSCEIVE [REQUEST_A]
        (mkEnv 0x31 false 0 2 0 [0xAB, 0xCD])).backData.length :=
  ⟨rfl, rfl, by decide, by decide,
    C3_amended [REQUEST_A] (mkEnv 0x31 false 0 2 0 [0xAB, 0xCD]) 0x31 rfl rfl
      (by decide) (by decide)⟩

/-- C4: for every transceive invocation that does not end in TIMEOUT (the
deadline re-check was not late) nor in an error-register ERROR (no 0x1B
bit set), with the FIFO level read from the chip at most 16, the returned
bit length is (fifo_level - 1) * 8 + last_bits when the low 3 control
bits are nonzero, else fifo_level * 8; last_bits always lies in [0,7]. -/
theorem C4_bit_length (send : List Nat) (e : CommEnv) (fifo_level last_bits : Nat)
    (hlate : e.lateFinal = false) (herr : e.errorReg &&& 0x1B = 0)
    (hfv : fifo_level = e.fifoLevel) (hlb : last_bits = e.controlReg &&& 0x07)
    (hf : fifo_level ≤ 16) :
    (_communicate_with_card TRANSCEIVE send e).backLen =
      (if last_bits ≠ 0 then ((fifo_level : Int) - 1) * 8 + (last_bits : Int)
       else (fifo_level : Int) * 8) ∧
    last_bits ≤ 7 := by
  subst hfv; subst hlb
  rw [comm_transceive_fields send e hlate herr]
  exact ⟨rfl, Nat.and_le_right⟩

/-- C4 witness: FIFO level 5, control register 3 (last_bits 3), clean
run: bit length (5-1)*8+3. -/
theorem C4_witness :
    (mkEnv 0x30 false 0 5 3 [1, 2, 3, 4, 5]).lateFinal = false ∧
    (mkEnv 0x30 false 0 5 3 [1, 2, 3, 4, 5]).errorReg &&& 0x1B = 0 ∧
    (mkEnv 0x30 false 0 5 3 [1, 2, 3, 4, 5]).fifoLevel ≤ 16 ∧
    ((_communicate_with_card TRANSCEIVE [REQUEST_A]
        (mkEnv 0x30 false 0 5 3 [1, 2, 3, 4, 5])).backLen =
      (if (3 : Nat) ≠ 0 then (((5 : Nat) : Int) - 1) * 8 + ((3 : Nat) : Int)
       else ((5 : Nat) : Int) * 8) ∧
    (3 : Nat) ≤ 7) :=
  ⟨rfl, by decide, by decide,
    C4_bit_length [REQUEST_A] (mkEnv 0x30 false 0 5 3 [1, 2, 3, 4, 5]) 5 3
      rfl (by decide) (by decide) (by decide) (by decide)⟩

/-- C5: every transceive invocation that reaches the FIFO-drain step (the
deadline re-check was not late and no 0x1B error bit is set) drains and
returns exactly max 1 (min 16 fifo_level) bytes, for any FIFO-level byte
in [0, 255]. -/
theorem C5_drain_count (send : List Nat) (e : CommEnv)
    (hlate : e.lateFinal = false) (herr : e.errorReg &&& 0x1B = 0)
    (hb : e.fifoLevel ≤ 255) :
    (_communicate_with_card TRANSCEIVE send e).backData.length =
      max 1 (min 16 e.fifoLevel) := by
  rw [comm_transceive_fields send e hlate herr]
  simp only [List.length_map, List.length_range]
  exact drainCount_eq_max_min e.fifoLevel

/-- C5 witness: a FIFO level of 40 is clamped to a 16-byte drain. -/
theorem C5_witness :
    (mkEnv 0x30 false 0 40 0 []).lateFinal = false ∧
    (mkEnv 0x30 false 0 40 0 []).errorReg &&& 0x1B = 0 ∧
    (mkEnv 0x30 false 0 40 0 []).fifoLevel ≤ 255 ∧
    (_communicate_with_card TRANSCEIVE [REQUEST_A]
        (mkEnv 0x30 false 0 40 0 [])).backData.length =
      max 1 (min 16 (mkEnv 0x30 false 0 40 0 []).fifoLevel) :=
  ⟨rfl, by decide, by decide,
    C5_drain_count [REQUEST_A] (mkEnv 0x30 false 0 40 0 []) rfl (by decide) (by decide)⟩

/-- C6: `request` returns (OK, payload) exactly when the underlying
communicate call returned status OK with exactly 2 bytes, the payload
then being those 2 bytes (the ATQA); every other outcome — any non-OK
status including TIMEOUT, or any byte count other than 2 — is normalized
to (ERROR, None) with no payload. -/
theorem C6_request (e : CommEnv) :
    (((_communicate_with_card TRANSCEIVE [REQUEST_A] e).status = OK ∧
      (_communicate_with_card TRANSCEIVE [REQUEST_A] e).backData.length = 2) →
      request e =
        { status := OK,
          payload := some (_communicate_with_card TRANSCEIVE [REQUEST_A] e).backData }) ∧
    (¬((_communicate_with_card TRANSCEIVE [REQUEST_A] e).status = OK ∧
        (_communicate_with_card TRANSCEIVE [REQUEST_A] e).backData.length = 2) →
      request e = { status := ERROR, payload := none }) := by
  constructor
  · rintro ⟨hs, hl⟩
    simp only [request]
    rw [if_neg (by simp [hs, hl]), hs]
  · intro h
    simp only [request]
    rw [if_pos (not_and_or.mp h)]

/-- C6 witness: the spec scenario, a 2-byte ATQA 04 00 received with
status OK, surfaced as the payload. -/
theorem C6_witness :
    (_communicate_with_card TRANSCEIVE [REQUEST_A] (mkEnv 0x30 false 0 2 0 [0x04, 0x00])).status
      = OK ∧
    (_communicate_with_card TRANSCEIVE [REQUEST_A]
      (mkEnv 0x30 false 0 2 0 [0x04, 0x00])).backData.length = 2 ∧
    request (mkEnv 0x30 false 0 2 0 [0x04, 0x00]) =
      { status := OK,
        payload :=
          some (_communicate_with_card TRANSCEIVE [REQUEST_A]
            (mkEnv 0x30 false 0 2 0 [0x04, 0x00])).backData } :=
  ⟨by decide, by decide,
    (C6_request (mkEnv 0x30 false 0 2 0 [0x04, 0x00])).1 ⟨by decide, by decide⟩⟩

/-- C7 counterexample: the claim states that `antenna_on` writes whenever
either driver-enable bit is clear.  With the transmit-control register
reading 0x01 (bit 0 set, bit 1 clear — so one of the two bits is clear
and the claimed write should happen), the code performs no write at all:
the guard `not (value & 0x03)` only fires when both bits are clear. -/
theorem C7_counterexample :
    (1 : Nat) &&& 0x03 ≠ 0x03 ∧
    antenna_on 1 1 = [RegOp.rd TX_CONTROL_REG 1] ∧
    (antenna_on 1 1).all (fun op => !op.isWrite) = true := by decide

/-- C7 (amended): `antenna_on` performs a write exactly when both
driver-enable bits are clear in the value first read from the
transmit-control register (v1 &&& 0x03 = 0); when it writes, the written
value has both driver-enable bits set.  In particular no write happens
when both bits are already set, but also none when exactly one is set. -/
theorem C7_amended (v1 v2 : Nat) :
    ((antenna_on v1 v2).any (fun op => op.isWrite) = true ↔ v1 &&& 0x03 = 0) ∧
    (∀ w, RegOp.wr TX_CONTROL_REG w ∈ antenna_on v1 v2 → w &&& 0x03 = 0x03) := by
  have hw3 : (v2 ||| 0x03) &&& 0x03 = 0x03 := by
    apply Nat.eq_of_testBit_eq
    intro i
    simp only [Nat.testBit_and, Nat.testBit_or]
    cases h3 : (0x03 : Nat).testBit i <;> cases hv : v2.testBit i <;> rfl
  unfold antenna_on
  by_cases h : v1 &&& 0x03 = 0
  · rw [if_pos h]
    refine ⟨⟨fun _ => h, fun _ => by simp [RegOp.isWrite]⟩, ?_⟩
    intro w hw
    simp only [List.mem_cons, List.not_mem_nil, or_false] at hw
    rcases hw with h1 | h2 | h3x
    · cases h1
    · cases h2
    · injection h3x with hreg hval
      rw [hval]
      exact hw3
  · rw [if_neg h]
    refine ⟨⟨fun hany => ?_, fun h0 => absurd h0 h⟩, ?_⟩
    · simp [RegOp.isWrite] at hany
    · intro w hw
      simp only [List.mem_cons, List.not_mem_nil, or_false] at hw
      cases hw

/-- C7 witness: with both driver bits clear (read 0x00) a write happens,
and the value written into the transmit-control register (5 | 3 = 7) has
both driver bits set. -/
theorem C7_witness :
    (antenna_on 0 5).any (fun op => op.isWrite) = true ∧ (7 : Nat) &&& 0x03 = 0x03 :=
  ⟨((C7_amended 0 5).1).mpr (by decide), (C7_amended 0 5).2 7 (by decide)⟩

/-- C8: the claim states that `cleanup` is idempotent — a second call
succeeds without raising and performs no hardware reset on released
resources.  The code contradicts this intent: `cleanup` never clears
`self._initialized` nor drops the released line handle, so a second call
re-enters `_reset` and drives the reset line through the released GPIO
request, which raises.  The theorem evaluates the model at the failing
input: the first call succeeds (leaving `_initialized` still true), the
second call faults in the GPIO collaborator instead of being a no-op. -/
theorem C8_cleanup_not_idempotent :
    cleanup initializedSession =
      Except.ok { initialized := true, lineRequested := false,
                  chipOpen := false, spiOpen := false } ∧
    (cleanup initializedSession).bind cleanup =
      Except.error GpioFault.useAfterRelease :=
  ⟨rfl, rfl⟩

/-- C9: the bit length of a transceive invocation is computed from the
raw FIFO-level byte before the drain count is clamped: for a raw level
above 16 the bit length exceeds 8 times the 16 returned bytes, and for a
raw level of 0 with nonzero last_bits the bit length is the negative
last_bits - 8 although one byte of data is returned. -/
theorem C9_raw_bit_length (send : List Nat) (e : CommEnv)
    (hlate : e.lateFinal = false) (herr : e.errorReg &&& 0x1B = 0) :
    (16 < e.fifoLevel →
      (_communicate_with_card TRANSCEIVE send e).backData.length = 16 ∧
      8 * (((_communicate_with_card TRANSCEIVE send e).backData.length : Nat) : Int) <
        (_communicate_with_card TRANSCEIVE send e).backLen) ∧
    (e.fifoLevel = 0 → e.controlReg &&& 0x07 ≠ 0 →
      (_communicate_with_card TRANSCEIVE send e).backLen =
        (((e.controlReg &&& 0x07 : Nat)) : Int) - 8 ∧
      (_communicate_with_card TRANSCEIVE send e).backLen < 0 ∧
      (_communicate_with_card TRANSCEIVE send e).backData.length = 1) := by
  have hlb7 : e.controlReg &&& 0x07 ≤ 7 := Nat.and_le_right
  rw [comm_transceive_fields send e hlate herr]
  simp only [List.length_map, List.length_range]
  constructor
  · intro hgt
    have hd : drainCount e.fifoLevel = 16 := by rw [drainCount_eq_max_min]; omega
    rw [hd]
    refine ⟨rfl, ?_⟩
    by_cases hc : e.controlReg &&& 0x07 ≠ 0
    · rw [if_pos hc]
      omega
    · rw [if_neg hc]
      omega
  · intro h0 hc
    rw [if_pos hc, h0]
    have hd : drainCount 0 = 1 := by decide
    rw [hd]
    refine ⟨by omega, by omega, rfl⟩

/-- C9 witness: raw FIFO level 40 with last_bits 0 — 16 bytes returned,
bit length 320 > 128. -/
theorem C9_witness :
    (mkEnv 0x30 false 0 40 0 []).lateFinal = false ∧
    (mkEnv 0x30 false 0 40 0 []).errorReg &&& 0x1B = 0 ∧
    16 < (mkEnv 0x30 false 0 40 0 []).fifoLevel ∧
    (_communicate_with_card TRANSCEIVE [ANTICOLL_1, 0x20]
        (mkEnv 0x30 false 0 40 0 [])).backData.length = 16 ∧
    8 * (((_communicate_with_card TRANSCEIVE [ANTICOLL_1, 0x20]
        (mkEnv 0x30 false 0 40 0 [])).backData.length : Nat) : Int) <
      (_communicate_with_card TRANSCEIVE [ANTICOLL_1, 0x20]
        (mkEnv 0x30 false 0 40 0 [])).backLen :=
  ⟨rfl, by decide, by decide,
    (C9_raw_bit_length [ANTICOLL_1, 0x20] (mkEnv 0x30 false 0 40 0 [])
      rfl (by decide)).1 (by decide)⟩

/-- A clean non-timeout run whose FIFO-flush read returned `flush`. -/
def envFlush (flush : Nat) : CommEnv :=
  { mkEnvTimeout with lateFinal := false, pollIrq := some 0x30, fifoLevelFlush := flush }

/-- C10 counterexample: the claim states that the FIFO-level register is
never read for non-transceive commands.  On the code it is read in every
invocation, whatever the command, by the FIFO-flush read-modify-write
`_set_bit_mask(FIFO_LEVEL_REG, 0x80)`: here a calculate-CRC invocation
that ends OK has read FIFO_LEVEL_REG (value 0x12) in its trace. -/
theorem C10_counterexample :
    CALC_CRC ≠ TRANSCEIVE ∧
    (_communicate_with_card CALC_CRC [] (envFlush 0x12)).status = OK ∧
    RegOp.rd FIFO_LEVEL_REG 0x12 ∈
      (_communicate_with_card CALC_CRC [] (envFlush 0x12)).trace := by
  refine ⟨by decide, by decide, by decide⟩

/-- C10 (amended): for every non-transceive command, an invocation that
does not end in TIMEOUT nor in an error-register ERROR returns an empty
data sequence and bit length 0; after the command is started the control
and FIFO-data registers are never read, and the FIFO-level register is
read exactly once in the whole invocation — before the command starts,
by the FIFO-flush read-modify-write. -/
theorem C10_amended (command : Nat) (send : List Nat) (e : CommEnv)
    (hc : command ≠ TRANSCEIVE) (hlate : e.lateFinal = false)
    (herr : e.errorReg &&& 0x1B = 0) :
    (_communicate_with_card command send e).backData = [] ∧
    (_communicate_with_card command send e).backLen = 0 ∧
    readsOf (_communicate_with_card command send e).trace CONTROL_REG = [] ∧
    readsOf (_communicate_with_card command send e).trace FIFO_DATA_REG = [] ∧
    readsOf (_communicate_with_card command send e).trace FIFO_LEVEL_REG =
      [e.fifoLevelFlush] := by
  rw [comm_other_fields command send e hc hlate herr]
  refine ⟨rfl, rfl, ?_, ?_, ?_⟩
  · rw [readsOf_append, readsOf_append,
      readsOf_preTrace_ne _ _ _ _ (by decide) (by decide),
      readsOf_clearTrace _ _ (by decide),
      readsOf_cons_rd_ne _ _ _ _ (by decide), readsOf_nil]
    rfl
  · rw [readsOf_append, readsOf_append,
      readsOf_preTrace_ne _ _ _ _ (by decide) (by decide),
      readsOf_clearTrace _ _ (by decide),
      readsOf_cons_rd_ne _ _ _ _ (by decide), readsOf_nil]
    rfl
  · rw [readsOf_append, readsOf_append,
      readsOf_preTrace_fifo_level _ _ _ hc,
      readsOf_clearTrace _ _ (by decide),
      readsOf_cons_rd_ne _ _ _ _ (by decide), readsOf_nil]
    rfl

/-- C10 witness: an idle-command invocation with a clean run returns no
data, bit length 0, no control/FIFO-data reads, and a single FIFO-level
read (the flush, which returned 0x21 here). -/
theorem C10_witness :
    IDLE ≠ TRANSCEIVE ∧
    (envFlush 0x21).lateFinal = false ∧
    (_communicate_with_card IDLE [] (envFlush 0x21)).backData = [] ∧
    (_communicate_with_card IDLE [] (envFlush 0x21)).backLen = 0 ∧
    readsOf (_communicate_with_card IDLE [] (envFlush 0x21)).trace CONTROL_REG = [] ∧
    readsOf (_communicate_with_card IDLE [] (envFlush 0x21)).trace FIFO_DATA_REG = [] ∧
    readsOf (_communicate_with_card IDLE [] (envFlush 0x21)).trace FIFO_LEVEL_REG =
      [(envFlush 0x21).fifoLevelFlush] :=
  ⟨by decide, rfl,
    C10_amended IDLE [] (envFlush 0x21) (by decide) rfl (by decide)⟩

end RC522
